import Mathlib

/-!
Verification development for a small NMOS 6502 emulator and disassembler.

The CPU core (6502.c) is embedded shallowly: the global register file and
the 64 KiB memory array become one record `CPU`; `uint8_t`/`uint16_t`
arithmetic becomes `Nat` arithmetic with explicit `% 256` / `% 65536` at
the points where the C code truncates (assignment to a narrow variable,
conversion of an argument, wrap of an index).  Bitwise complements of
8-bit masks are written `0xFF ^^^ mask`, the value the C expression
`flags &~ mask` has on a `uint8_t`.  Fallible execution (the fatal
decode error on an undefined opcode) becomes `Option CPU`.
-/

namespace Mos6502

/-- CPU state: registers A, X, Y, the 6-bit status byte, stack pointer,
program counter, and the 64 KiB memory array (modelled as a function;
`rd8`/`wr8` reduce addresses mod 65536 and cell values mod 256, which is
what the `uint8_t mem[64*1024]` array enforces by type). -/
@[ext] structure CPU where
  a : Nat
  x : Nat
  y : Nat
  flags : Nat
  sp : Nat
  pc : Nat
  mem : Nat → Nat

def F_N : Nat := 128
def F_V : Nat := 64
def F_5 : Nat := 32
def F_B : Nat := 16
def F_D : Nat := 8
def F_I : Nat := 4
def F_Z : Nat := 2
def F_C : Nat := 1

/-- only 6 physical bits -/
def F_PHYSICAL : Nat := F_N ||| F_V ||| F_D ||| F_I ||| F_Z ||| F_C

/-- the all-zero memory image, used to build concrete test memories -/
def mem0 : Nat → Nat := fun _ => 0

def rd8 (m : Nat → Nat) (addr : Nat) : Nat := m (addr % 65536) % 256

def wr8 (m : Nat → Nat) (addr v : Nat) : Nat → Nat :=
  fun i => if i = addr % 65536 then v % 256 else m i

def cpu_init (m : Nat → Nat) : CPU :=
  { a := 0, x := 0, y := 0, flags := F_I, sp := 0xFD,
    pc := rd8 m 0xFFFC + (rd8 m 0xFFFD <<< 8), mem := m }

def cpu_push8 (s : CPU) (v : Nat) : CPU :=
  { s with mem := wr8 s.mem (0x0100 + s.sp) v, sp := (s.sp + 255) % 256 }

def cpu_pop8 (s : CPU) : Nat × CPU :=
  let sp := (s.sp + 1) % 256
  (rd8 s.mem (0x0100 + sp), { s with sp := sp })

def cpu_fetch8 (s : CPU) : Nat × CPU :=
  (rd8 s.mem s.pc, { s with pc := (s.pc + 1) % 65536 })

def cpu_fetch16 (s : CPU) : Nat × CPU :=
  let (lo, s) := cpu_fetch8 s
  let (hi, s) := cpu_fetch8 s
  (lo + (hi <<< 8), s)

/-- get addr for indexed indirect, (ind,X) -/
def cpu_ind_x (s : CPU) : Nat × CPU :=
  let (d, s) := cpu_fetch8 s
  let zpaddr := (d + s.x) &&& 0xFF
  (rd8 s.mem zpaddr + (rd8 s.mem ((zpaddr + 1) % 256) <<< 8), s)

/-- get addr for indirect indexed, (ind),Y -/
def cpu_ind_y (s : CPU) : Nat × CPU :=
  let (d, s) := cpu_fetch8 s
  let addr := rd8 s.mem d + (rd8 s.mem ((d + 1) % 256) <<< 8)
  ((addr + s.y) % 65536, s)

/-- most writes to A/X/Y -/
def cpu_flags_nz (f v : Nat) : Nat :=
  (f &&& (0xFF ^^^ (F_N ||| F_Z)))
    ||| (if v &&& 0x80 ≠ 0 then F_N else 0)
    ||| (if v ≠ 0 then 0 else F_Z)

/-- for CMP/CPX/CPY; the argument is the 16-bit unsigned difference -/
def cpu_flags_nzc (f v : Nat) : Nat :=
  (f &&& (0xFF ^^^ (F_N ||| F_Z ||| F_C)))
    ||| (if v &&& 0x80 ≠ 0 then F_N else 0)
    ||| (if v &&& 0xFF ≠ 0 then 0 else F_Z)
    ||| (if v >>> 8 ≠ 0 then 0 else F_C)

/-- 16-bit unsigned subtraction a - b as the C int subtraction of two
uint16 values converted back to uint16 (b is at most 65536) -/
def sub16 (a b : Nat) : Nat := (a + 65536 - b) % 65536

def cpu_bit (s : CPU) (v : Nat) : CPU :=
  { s with flags :=
      (s.flags &&& (0xFF ^^^ (F_N ||| F_Z ||| F_V)))
        ||| (if v &&& 0x80 ≠ 0 then F_N else 0)
        ||| (if s.a &&& v ≠ 0 then 0 else F_Z)
        ||| (if v &&& 0x40 ≠ 0 then F_V else 0) }

/-- the value of (int16_t)(int8_t)v for a byte v, as an integer -/
def signed8 (v : Nat) : Int := if v &&& 0x80 = 0 then (v : Int) else (v : Int) - 256

/-- the value of (int16_t)(int8_t)v for a byte v, converted to uint16 -/
def sext8_16 (v : Nat) : Nat := if v &&& 0x80 = 0 then v else v + 0xFF00

def cpu_adc (s : CPU) (v : Nat) : CPU :=
  let c : Nat := if s.flags &&& F_C ≠ 0 then 1 else 0
  let u : Nat := (s.a + v + c) % 65536
  let sg : Int := signed8 s.a + signed8 v + c
  let a : Nat := u % 256
  { s with
    a := a
    flags := (s.flags &&& (0xFF ^^^ (F_N ||| F_Z ||| F_V ||| F_C)))
      ||| (if a &&& 0x80 ≠ 0 then F_N else 0)
      ||| (if a ≠ 0 then 0 else F_Z)
      ||| (if u >>> 8 ≠ 0 then F_C else 0)
      ||| (if 127 < sg ∨ sg < -128 then F_V else 0) }

def cpu_sbc (s : CPU) (v : Nat) : CPU :=
  let b : Nat := if s.flags &&& F_C ≠ 0 then 0 else 1
  let u : Nat := (s.a + 65536 - v - b) % 65536
  let sg : Int := signed8 s.a - signed8 v - b
  let a : Nat := u % 256
  { s with
    a := a
    flags := (s.flags &&& (0xFF ^^^ (F_N ||| F_Z ||| F_V ||| F_C)))
      ||| (if a &&& 0x80 ≠ 0 then F_N else 0)
      ||| (if a ≠ 0 then 0 else F_Z)
      ||| (if u >>> 8 ≠ 0 then 0 else F_C)
      ||| (if 127 < sg ∨ sg < -128 then F_V else 0) }

/-- 9-bit rotate left through carry -/
def cpu_rol (s : CPU) (v : Nat) : Nat × CPU :=
  let cy : Bool := v &&& 0x80 ≠ 0
  let v2 : Nat := ((v <<< 1) ||| (if s.flags &&& F_C ≠ 0 then 1 else 0)) % 256
  let f1 : Nat := (s.flags &&& (0xFF ^^^ F_C)) ||| (if cy then F_C else 0)
  (v2, { s with flags := cpu_flags_nz f1 v2 })

/-- 9-bit rotate right through carry -/
def cpu_ror (s : CPU) (v : Nat) : Nat × CPU :=
  let cy : Bool := v &&& 0x01 ≠ 0
  let v2 : Nat := (if s.flags &&& F_C ≠ 0 then 0x80 else 0x00) ||| (v >>> 1)
  let f1 : Nat := (s.flags &&& (0xFF ^^^ F_C)) ||| (if cy then F_C else 0)
  (v2, { s with flags := cpu_flags_nz f1 v2 })

/-- row 0x00 of the switch in cpu_execute -/
def cpu_dispatch_row0 (opcode : Nat) (s : CPU) : Option CPU :=
  match opcode with
  | 0x00 =>      -- BRK
    let s := cpu_push8 s (s.pc >>> 8)
    let s := cpu_push8 s (s.pc &&& 0xFF)
    let s := cpu_push8 s (s.flags ||| F_B ||| F_5)
    let addr := rd8 s.mem 0xFFFE + (rd8 s.mem 0xFFFF <<< 8)
    some { s with flags := s.flags ||| F_I, pc := addr }
  | 0x01 =>      -- ORA (ind,X)
    let r := cpu_ind_x s
    let ea := r.1
    let s := r.2
    let a := s.a ||| rd8 s.mem ea
    some { s with a := a, flags := cpu_flags_nz s.flags a }
  | 0x05 =>      -- ORA zpg
    let r := cpu_fetch8 s
    let d := r.1
    let s := r.2
    let a := s.a ||| rd8 s.mem d
    some { s with a := a, flags := cpu_flags_nz s.flags a }
  | 0x06 =>      -- ASL zpg
    let r := cpu_fetch8 s
    let addr := r.1
    let s := r.2
    let t := rd8 s.mem addr
    let f := (s.flags &&& (0xFF ^^^ F_C)) ||| (if t &&& 0x80 ≠ 0 then F_C else 0)
    let t := (t <<< 1) % 256
    some { s with mem := wr8 s.mem addr t, flags := cpu_flags_nz f t }
  | 0x08 =>      -- PHP
    some (cpu_push8 s (s.flags ||| F_B ||| F_5))
  | 0x09 =>      -- ORA #
    let r := cpu_fetch8 s
    let v := r.1
    let s := r.2
    let a := s.a ||| v
    some { s with a := a, flags := cpu_flags_nz s.flags a }
  | 0x0A =>      -- ASL A
    let f := (s.flags &&& (0xFF ^^^ F_C)) ||| (if s.a &&& 0x80 ≠ 0 then F_C else 0)
    let a := (s.a <<< 1) % 256
    some { s with a := a, flags := cpu_flags_nz f a }
  | 0x0D =>      -- ORA abs
    let r := cpu_fetch16 s
    let ea := r.1
    let s := r.2
    let a := s.a ||| rd8 s.mem ea
    some { s with a := a, flags := cpu_flags_nz s.flags a }
  | 0x0E =>      -- ASL abs
    let r := cpu_fetch16 s
    let addr := r.1
    let s := r.2
    let t := rd8 s.mem addr
    let f := (s.flags &&& (0xFF ^^^ F_C)) ||| (if t &&& 0x80 ≠ 0 then F_C else 0)
    let t := (t <<< 1) % 256
    some { s with mem := wr8 s.mem addr t, flags := cpu_flags_nz f t }
  | _ => none

/-- row 0x10 of the switch in cpu_execute -/
def cpu_dispatch_row1 (opcode : Nat) (s : CPU) : Option CPU :=
  match opcode with
  | 0x10 =>      -- BPL rel
    let r := cpu_fetch8 s
    let d := r.1
    let s := r.2
    let addr := sext8_16 d
    some { s with pc := if s.flags &&& F_N = 0 then (s.pc + addr) % 65536 else s.pc }
  | 0x11 =>      -- ORA (ind),Y
    let r := cpu_ind_y s
    let ea := r.1
    let s := r.2
    let a := s.a ||| rd8 s.mem ea
    some { s with a := a, flags := cpu_flags_nz s.flags a }
  | 0x15 =>      -- ORA zpg,X
    let r := cpu_fetch8 s
    let d := r.1
    let s := r.2
    let a := s.a ||| rd8 s.mem ((d + s.x) &&& 0xFF)
    some { s with a := a, flags := cpu_flags_nz s.flags a }
  | 0x16 =>      -- ASL zpg,X
    let r := cpu_fetch8 s
    let d := r.1
    let s := r.2
    let addr := (d + s.x) &&& 0xFF
    let t := rd8 s.mem addr
    let f := (s.flags &&& (0xFF ^^^ F_C)) ||| (if t &&& 0x80 ≠ 0 then F_C else 0)
    let t := (t <<< 1) % 256
    some { s with mem := wr8 s.mem addr t, flags := cpu_flags_nz f t }
  | 0x18 =>      -- CLC
    some { s with flags := s.flags &&& (0xFF ^^^ F_C) }
  | 0x19 =>      -- ORA abs,Y
    let r := cpu_fetch16 s
    let ea := r.1
    let s := r.2
    let a := s.a ||| rd8 s.mem (ea + s.y)
    some { s with a := a, flags := cpu_flags_nz s.flags a }
  | 0x1D =>      -- ORA abs,X
    let r := cpu_fetch16 s
    let ea := r.1
    let s := r.2
    let a := s.a ||| rd8 s.mem (ea + s.x)
    some { s with a := a, flags := cpu_flags_nz s.flags a }
  | 0x1E =>      -- ASL abs,X
    let r := cpu_fetch16 s
    let ea := r.1
    let s := r.2
    let addr := (ea + s.x) % 65536
    let t := rd8 s.mem addr
    let f := (s.flags &&& (0xFF ^^^ F_C)) ||| (if t &&& 0x80 ≠ 0 then F_C else 0)
    let t := (t <<< 1) % 256
    some { s with mem := wr8 s.mem addr t, flags := cpu_flags_nz f t }
  | _ => none

/-- row 0x20 of the switch in cpu_execute -/
def cpu_dispatch_row2 (opcode : Nat) (s : CPU) : Option CPU :=
  match opcode with
  | 0x20 =>      -- JSR abs: return address is the last byte of the instruction
    let r := cpu_fetch8 s
    let lo := r.1
    let s := r.2
    let s := cpu_push8 s (s.pc >>> 8)
    let s := cpu_push8 s (s.pc &&& 0xFF)
    let r := cpu_fetch8 s
    let hi := r.1
    let s := r.2
    some { s with pc := lo ||| (hi <<< 8) }
  | 0x21 =>      -- AND (ind,X)
    let r := cpu_ind_x s
    let ea := r.1
    let s := r.2
    let a := s.a &&& rd8 s.mem ea
    some { s with a := a, flags := cpu_flags_nz s.flags a }
  | 0x24 =>      -- BIT zpg
    let r := cpu_fetch8 s
    let d := r.1
    let s := r.2
    some (cpu_bit s (rd8 s.mem d))
  | 0x25 =>      -- AND zpg
    let r := cpu_fetch8 s
    let d := r.1
    let s := r.2
    let a := s.a &&& rd8 s.mem d
    some { s with a := a, flags := cpu_flags_nz s.flags a }
  | 0x26 =>      -- ROL zpg
    let r := cpu_fetch8 s
    let addr := r.1
    let s := r.2
    let r := cpu_rol s (rd8 s.mem addr)
    let v := r.1
    let s := r.2
    some { s with mem := wr8 s.mem addr v }
  | 0x28 =>      -- PLP
    let r := cpu_pop8 s
    let v := r.1
    let s := r.2
    some { s with flags := v &&& F_PHYSICAL }
  | 0x29 =>      -- AND #
    let r := cpu_fetch8 s
    let v := r.1
    let s := r.2
    let a := s.a &&& v
    some { s with a := a, flags := cpu_flags_nz s.flags a }
  | 0x2A =>      -- ROL A
    let r := cpu_rol s s.a
    let v := r.1
    let s := r.2
    some { s with a := v }
  | 0x2C =>      -- BIT abs
    let r := cpu_fetch16 s
    let ea := r.1
    let s := r.2
    some (cpu_bit s (rd8 s.mem ea))
  | 0x2D =>      -- AND abs
    let r := cpu_fetch16 s
    let ea := r.1
    let s := r.2
    let a := s.a &&& rd8 s.mem ea
    some { s with a := a, flags := cpu_flags_nz s.flags a }
  | 0x2E =>      -- ROL abs
    let r := cpu_fetch16 s
    let addr := r.1
    let s := r.2
    let r := cpu_rol s (rd8 s.mem addr)
    let v := r.1
    let s := r.2
    some { s with mem := wr8 s.mem addr v }
  | _ => none

/-- row 0x30 of the switch in cpu_execute -/
def cpu_dispatch_row3 (opcode : Nat) (s : CPU) : Option CPU :=
  match opcode with
  | 0x30 =>      -- BMI rel
    let r := cpu_fetch8 s
    let d := r.1
    let s := r.2
    let addr := sext8_16 d
    some { s with pc := if s.flags &&& F_N ≠ 0 then (s.pc + addr) % 65536 else s.pc }
  | 0x31 =>      -- AND (ind),Y
    let r := cpu_ind_y s
    let ea := r.1
    let s := r.2
    let a := s.a &&& rd8 s.mem ea
    some { s with a := a, flags := cpu_flags_nz s.flags a }
  | 0x35 =>      -- AND zpg,X
    let r := cpu_fetch8 s
    let d := r.1
    let s := r.2
    let a := s.a &&& rd8 s.mem ((d + s.x) &&& 0xFF)
    some { s with a := a, flags := cpu_flags_nz s.flags a }
  | 0x36 =>      -- ROL zpg,X
    let r := cpu_fetch8 s
    let d := r.1
    let s := r.2
    let addr := (d + s.x) &&& 0xFF
    let r := cpu_rol s (rd8 s.mem addr)
    let v := r.1
    let s := r.2
    some { s with mem := wr8 s.mem addr v }
  | 0x38 =>      -- SEC
    some { s with flags := s.flags ||| F_C }
  | 0x39 =>      -- AND abs,Y
    let r := cpu_fetch16 s
    let ea := r.1
    let s := r.2
    let a := s.a &&& rd8 s.mem (ea + s.y)
    some { s with a := a, flags := cpu_flags_nz s.flags a }
  | 0x3D =>      -- AND abs,X
    let r := cpu_fetch16 s
    let ea := r.1
    let s := r.2
    let a := s.a &&& rd8 s.mem (ea + s.x)
    some { s with a := a, flags := cpu_flags_nz s.flags a }
  | 0x3E =>      -- ROL abs,X
    let r := cpu_fetch16 s
    let ea := r.1
    let s := r.2
    let addr := (ea + s.x) % 65536
    let r := cpu_rol s (rd8 s.mem addr)
    let v := r.1
    let s := r.2
    some { s with mem := wr8 s.mem addr v }
  | _ => none

/-- row 0x40 of the switch in cpu_execute -/
def cpu_dispatch_row4 (opcode : Nat) (s : CPU) : Option CPU :=
  match opcode with
  | 0x40 =>      -- RTI
    let r := cpu_pop8 s
    let p := r.1
    let s := r.2
    let s := { s with flags := p &&& F_PHYSICAL }
    let r := cpu_pop8 s
    let lo := r.1
    let s := r.2
    let r := cpu_pop8 s
    let hi := r.1
    let s := r.2
    some { s with pc := lo + (hi <<< 8) }
  | 0x41 =>      -- EOR (ind,X)
    let r := cpu_ind_x s
    let ea := r.1
    let s := r.2
    let a := s.a ^^^ rd8 s.mem ea
    some { s with a := a, flags := cpu_flags_nz s.flags a }
  | 0x45 =>      -- EOR zpg
    let r := cpu_fetch8 s
    let d := r.1
    let s := r.2
    let a := s.a ^^^ rd8 s.mem d
    some { s with a := a, flags := cpu_flags_nz s.flags a }
  | 0x46 =>      -- LSR zpg
    let r := cpu_fetch8 s
    let addr := r.1
    let s := r.2
    let t := rd8 s.mem addr
    let f := (s.flags &&& (0xFF ^^^ F_C)) ||| (if t &&& 0x01 ≠ 0 then F_C else 0)
    let t := t >>> 1
    some { s with mem := wr8 s.mem addr t, flags := cpu_flags_nz f t }
  | 0x48 =>      -- PHA
    some (cpu_push8 s s.a)
  | 0x49 =>      -- EOR #
    let r := cpu_fetch8 s
    let v := r.1
    let s := r.2
    let a := s.a ^^^ v
    some { s with a := a, flags := cpu_flags_nz s.flags a }
  | 0x4A =>      -- LSR A
    let f := (s.flags &&& (0xFF ^^^ F_C)) ||| (if s.a &&& 0x01 ≠ 0 then F_C else 0)
    let a := s.a >>> 1
    some { s with a := a, flags := cpu_flags_nz f a }
  | 0x4C =>      -- JMP abs
    let r := cpu_fetch16 s
    let ea := r.1
    let s := r.2
    some { s with pc := ea }
  | 0x4D =>      -- EOR abs
    let r := cpu_fetch16 s
    let ea := r.1
    let s := r.2
    let a := s.a ^^^ rd8 s.mem ea
    some { s with a := a, flags := cpu_flags_nz s.flags a }
  | 0x4E =>      -- LSR abs
    let r := cpu_fetch16 s
    let addr := r.1
    let s := r.2
    let t := rd8 s.mem addr
    let f := (s.flags &&& (0xFF ^^^ F_C)) ||| (if t &&& 0x01 ≠ 0 then F_C else 0)
    let t := t >>> 1
    some { s with mem := wr8 s.mem addr t, flags := cpu_flags_nz f t }
  | _ => none

/-- row 0x50 of the switch in cpu_execute -/
def cpu_dispatch_row5 (opcode : Nat) (s : CPU) : Option CPU :=
  match opcode with
  | 0x50 =>      -- BVC rel
    let r := cpu_fetch8 s
    let d := r.1
    let s := r.2
    let addr := sext8_16 d
    some { s with pc := if s.flags &&& F_V = 0 then (s.pc + addr) % 65536 else s.pc }
  | 0x51 =>      -- EOR (ind),Y
    let r := cpu_ind_y s
    let ea := r.1
    let s := r.2
    let a := s.a ^^^ rd8 s.mem ea
    some { s with a := a, flags := cpu_flags_nz s.flags a }
  | 0x55 =>      -- EOR zpg,X
    let r := cpu_fetch8 s
    let d := r.1
    let s := r.2
    let a := s.a ^^^ rd8 s.mem ((d + s.x) &&& 0xFF)
    some { s with a := a, flags := cpu_flags_nz s.flags a }
  | 0x56 =>      -- LSR zpg,X
    let r := cpu_fetch8 s
    let d := r.1
    let s := r.2
    let addr := (d + s.x) &&& 0xFF
    let t := rd8 s.mem addr
    let f := (s.flags &&& (0xFF ^^^ F_C)) ||| (if t &&& 0x01 ≠ 0 then F_C else 0)
    let t := t >>> 1
    some { s with mem := wr8 s.mem addr t, flags := cpu_flags_nz f t }
  | 0x58 =>      -- CLI
    some { s with flags := s.flags &&& (0xFF ^^^ F_I) }
  | 0x59 =>      -- EOR abs,Y
    let r := cpu_fetch16 s
    let ea := r.1
    let s := r.2
    let a := s.a ^^^ rd8 s.mem (ea + s.y)
    some { s with a := a, flags := cpu_flags_nz s.flags a }
  | 0x5D =>      -- EOR abs,X
    let r := cpu_fetch16 s
    let ea := r.1
    let s := r.2
    let a := s.a ^^^ rd8 s.mem (ea + s.x)
    some { s with a := a, flags := cpu_flags_nz s.flags a }
  | 0x5E =>      -- LSR abs,X
    let r := cpu_fetch16 s
    let ea := r.1
    let s := r.2
    let addr := (ea + s.x) % 65536
    let t := rd8 s.mem addr
    let f := (s.flags &&& (0xFF ^^^ F_C)) ||| (if t &&& 0x01 ≠ 0 then F_C else 0)
    let t := t >>> 1
    some { s with mem := wr8 s.mem addr t, flags := cpu_flags_nz f t }
  | _ => none

/-- row 0x60 of the switch in cpu_execute -/
def cpu_dispatch_row6 (opcode : Nat) (s : CPU) : Option CPU :=
  match opcode with
  | 0x60 =>      -- RTS
    let r := cpu_pop8 s
    let lo := r.1
    let s := r.2
    let r := cpu_pop8 s
    let hi := r.1
    let s := r.2
    some { s with pc := ((lo ||| (hi <<< 8)) + 1) % 65536 }
  | 0x61 =>      -- ADC (ind,X)
    let r := cpu_ind_x s
    let ea := r.1
    let s := r.2
    some (cpu_adc s (rd8 s.mem ea))
  | 0x65 =>      -- ADC zpg
    let r := cpu_fetch8 s
    let d := r.1
    let s := r.2
    some (cpu_adc s (rd8 s.mem d))
  | 0x66 =>      -- ROR zpg
    let r := cpu_fetch8 s
    let addr := r.1
    let s := r.2
    let r := cpu_ror s (rd8 s.mem addr)
    let v := r.1
    let s := r.2
    some { s with mem := wr8 s.mem addr v }
  | 0x68 =>      -- PLA
    let r := cpu_pop8 s
    let v := r.1
    let s := r.2
    some { s with a := v }
  | 0x69 =>      -- ADC #
    let r := cpu_fetch8 s
    let v := r.1
    let s := r.2
    some (cpu_adc s v)
  | 0x6A =>      -- ROR A
    let r := cpu_ror s s.a
    let v := r.1
    let s := r.2
    some { s with a := v }
  | 0x6C =>      -- JMP (ind)
    let r := cpu_fetch16 s
    let addr := r.1
    let s := r.2
    some { s with pc := rd8 s.mem addr + (rd8 s.mem (addr + 1) <<< 8) }
  | 0x6D =>      -- ADC abs
    let r := cpu_fetch16 s
    let ea := r.1
    let s := r.2
    some (cpu_adc s (rd8 s.mem ea))
  | 0x6E =>      -- ROR abs
    let r := cpu_fetch16 s
    let addr := r.1
    let s := r.2
    let r := cpu_ror s (rd8 s.mem addr)
    let v := r.1
    let s := r.2
    some { s with mem := wr8 s.mem addr v }
  | _ => none

/-- row 0x70 of the switch in cpu_execute -/
def cpu_dispatch_row7 (opcode : Nat) (s : CPU) : Option CPU :=
  match opcode with
  | 0x70 =>      -- BVS rel: the source tests F_N here, not F_V
    let r := cpu_fetch8 s
    let d := r.1
    let s := r.2
    let addr := sext8_16 d
    some { s with pc := if s.flags &&& F_N ≠ 0 then (s.pc + addr) % 65536 else s.pc }
  | 0x71 =>      -- ADC (ind),Y
    let r := cpu_ind_y s
    let ea := r.1
    let s := r.2
    some (cpu_adc s (rd8 s.mem ea))
  | 0x75 =>      -- ADC zpg,X
    let r := cpu_fetch8 s
    let d := r.1
    let s := r.2
    some (cpu_adc s (rd8 s.mem ((d + s.x) &&& 0xFF)))
  | 0x76 =>      -- ROR zpg,X
    let r := cpu_fetch8 s
    let d := r.1
    let s := r.2
    let addr := (d + s.x) &&& 0xFF
    let r := cpu_ror s (rd8 s.mem addr)
    let v := r.1
    let s := r.2
    some { s with mem := wr8 s.mem addr v }
  | 0x78 =>      -- SEI
    some { s with flags := s.flags ||| F_I }
  | 0x79 =>      -- ADC abs,Y
    let r := cpu_fetch16 s
    let ea := r.1
    let s := r.2
    some (cpu_adc s (rd8 s.mem (ea + s.y)))
  | 0x7D =>      -- ADC abs,X
    let r := cpu_fetch16 s
    let ea := r.1
    let s := r.2
    some (cpu_adc s (rd8 s.mem (ea + s.x)))
  | 0x7E =>      -- ROR abs,X
    let r := cpu_fetch16 s
    let ea := r.1
    let s := r.2
    let addr := (ea + s.x) % 65536
    let r := cpu_ror s (rd8 s.mem addr)
    let v := r.1
    let s := r.2
    some { s with mem := wr8 s.mem addr v }
  | _ => none

/-- row 0x80 of the switch in cpu_execute -/
def cpu_dispatch_row8 (opcode : Nat) (s : CPU) : Option CPU :=
  match opcode with
  | 0x81 =>      -- STA (ind,X)
    let r := cpu_ind_x s
    let ea := r.1
    let s := r.2
    some { s with mem := wr8 s.mem ea s.a }
  | 0x84 =>      -- STY zpg
    let r := cpu_fetch8 s
    let d := r.1
    let s := r.2
    some { s with mem := wr8 s.mem d s.y }
  | 0x85 =>      -- STA zpg
    let r := cpu_fetch8 s
    let d := r.1
    let s := r.2
    some { s with mem := wr8 s.mem d s.a }
  | 0x86 =>      -- STX zpg
    let r := cpu_fetch8 s
    let d := r.1
    let s := r.2
    some { s with mem := wr8 s.mem d s.x }
  | 0x88 =>      -- DEY
    let y := (s.y + 255) % 256
    some { s with y := y, flags := cpu_flags_nz s.flags y }
  | 0x8A =>      -- TXA
    let a := s.x
    some { s with a := a, flags := cpu_flags_nz s.flags a }
  | 0x8C =>      -- STY abs
    let r := cpu_fetch16 s
    let ea := r.1
    let s := r.2
    some { s with mem := wr8 s.mem ea s.y }
  | 0x8D =>      -- STA abs
    let r := cpu_fetch16 s
    let ea := r.1
    let s := r.2
    some { s with mem := wr8 s.mem ea s.a }
  | 0x8E =>      -- STX abs
    let r := cpu_fetch16 s
    let ea := r.1
    let s := r.2
    some { s with mem := wr8 s.mem ea s.x }
  | _ => none

/-- row 0x90 of the switch in cpu_execute -/
def cpu_dispatch_row9 (opcode : Nat) (s : CPU) : Option CPU :=
  match opcode with
  | 0x90 =>      -- BCC rel
    let r := cpu_fetch8 s
    let d := r.1
    let s := r.2
    let addr := sext8_16 d
    some { s with pc := if s.flags &&& F_C = 0 then (s.pc + addr) % 65536 else s.pc }
  | 0x91 =>      -- STA (ind),Y
    let r := cpu_ind_y s
    let ea := r.1
    let s := r.2
    some { s with mem := wr8 s.mem ea s.a }
  | 0x94 =>      -- STY zpg,X
    let r := cpu_fetch8 s
    let d := r.1
    let s := r.2
    some { s with mem := wr8 s.mem ((d + s.x) &&& 0xFF) s.y }
  | 0x95 =>      -- STA zpg,X
    let r := cpu_fetch8 s
    let d := r.1
    let s := r.2
    some { s with mem := wr8 s.mem ((d + s.x) &&& 0xFF) s.a }
  | 0x96 =>      -- STX zpg,Y
    let r := cpu_fetch8 s
    let d := r.1
    let s := r.2
    some { s with mem := wr8 s.mem ((d + s.y) &&& 0xFF) s.x }
  | 0x98 =>      -- TYA
    let a := s.y
    some { s with a := a, flags := cpu_flags_nz s.flags a }
  | 0x99 =>      -- STA abs,Y
    let r := cpu_fetch16 s
    let ea := r.1
    let s := r.2
    some { s with mem := wr8 s.mem (ea + s.y) s.a }
  | 0x9A =>      -- TXS, no flags affected
    some { s with sp := s.x }
  | 0x9D =>      -- STA abs,X
    let r := cpu_fetch16 s
    let ea := r.1
    let s := r.2
    some { s with mem := wr8 s.mem (ea + s.x) s.a }
  | _ => none

/-- row 0xA0 of the switch in cpu_execute -/
def cpu_dispatch_row10 (opcode : Nat) (s : CPU) : Option CPU :=
  match opcode with
  | 0xA0 =>      -- LDY #
    let r := cpu_fetch8 s
    let v := r.1
    let s := r.2
    some { s with y := v, flags := cpu_flags_nz s.flags v }
  | 0xA1 =>      -- LDA (ind,X)
    let r := cpu_ind_x s
    let ea := r.1
    let s := r.2
    let v := rd8 s.mem ea
    some { s with a := v, flags := cpu_flags_nz s.flags v }
  | 0xA2 =>      -- LDX #
    let r := cpu_fetch8 s
    let v := r.1
    let s := r.2
    some { s with x := v, flags := cpu_flags_nz s.flags v }
  | 0xA4 =>      -- LDY zpg
    let r := cpu_fetch8 s
    let d := r.1
    let s := r.2
    let v := rd8 s.mem d
    some { s with y := v, flags := cpu_flags_nz s.flags v }
  | 0xA5 =>      -- LDA zpg
    let r := cpu_fetch8 s
    let d := r.1
    let s := r.2
    let v := rd8 s.mem d
    some { s with a := v, flags := cpu_flags_nz s.flags v }
  | 0xA6 =>      -- LDX zpg
    let r := cpu_fetch8 s
    let d := r.1
    let s := r.2
    let v := rd8 s.mem d
    some { s with x := v, flags := cpu_flags_nz s.flags v }
  | 0xA8 =>      -- TAY
    let y := s.a
    some { s with y := y, flags := cpu_flags_nz s.flags y }
  | 0xA9 =>      -- LDA #: the source does not update any flags here
    let r := cpu_fetch8 s
    let v := r.1
    let s := r.2
    some { s with a := v }
  | 0xAA =>      -- TAX
    let x := s.a
    some { s with x := x, flags := cpu_flags_nz s.flags x }
  | 0xAB        -- marked unassigned in the source, but falls through
  | 0xAC =>      -- LDY abs
    let r := cpu_fetch16 s
    let ea := r.1
    let s := r.2
    let v := rd8 s.mem ea
    some { s with y := v, flags := cpu_flags_nz s.flags v }
  | 0xAD =>      -- LDA abs
    let r := cpu_fetch16 s
    let ea := r.1
    let s := r.2
    let v := rd8 s.mem ea
    some { s with a := v, flags := cpu_flags_nz s.flags v }
  | 0xAE =>      -- LDX abs
    let r := cpu_fetch16 s
    let ea := r.1
    let s := r.2
    let v := rd8 s.mem ea
    some { s with x := v, flags := cpu_flags_nz s.flags v }
  | _ => none

/-- row 0xB0 of the switch in cpu_execute -/
def cpu_dispatch_row11 (opcode : Nat) (s : CPU) : Option CPU :=
  match opcode with
  | 0xB0 =>      -- BCS rel
    let r := cpu_fetch8 s
    let d := r.1
    let s := r.2
    let addr := sext8_16 d
    some { s with pc := if s.flags &&& F_C ≠ 0 then (s.pc + addr) % 65536 else s.pc }
  | 0xB1 =>      -- LDA (ind),Y
    let r := cpu_ind_y s
    let ea := r.1
    let s := r.2
    let v := rd8 s.mem ea
    some { s with a := v, flags := cpu_flags_nz s.flags v }
  | 0xB4 =>      -- LDY zpg,X
    let r := cpu_fetch8 s
    let d := r.1
    let s := r.2
    let v := rd8 s.mem ((d + s.x) &&& 0xFF)
    some { s with y := v, flags := cpu_flags_nz s.flags v }
  | 0xB5 =>      -- LDA zpg,X
    let r := cpu_fetch8 s
    let d := r.1
    let s := r.2
    let v := rd8 s.mem ((d + s.x) &&& 0xFF)
    some { s with a := v, flags := cpu_flags_nz s.flags v }
  | 0xB6 =>      -- LDX zpg,Y
    let r := cpu_fetch8 s
    let d := r.1
    let s := r.2
    let v := rd8 s.mem ((d + s.y) &&& 0xFF)
    some { s with x := v, flags := cpu_flags_nz s.flags v }
  | 0xB8 =>      -- CLV
    some { s with flags := s.flags &&& (0xFF ^^^ F_V) }
  | 0xB9 =>      -- LDA abs,Y
    let r := cpu_fetch16 s
    let ea := r.1
    let s := r.2
    let v := rd8 s.mem (ea + s.y)
    some { s with a := v, flags := cpu_flags_nz s.flags v }
  | 0xBA =>      -- TSX
    let x := s.sp
    some { s with x := x, flags := cpu_flags_nz s.flags x }
  | 0xBC =>      -- LDY abs,X
    let r := cpu_fetch16 s
    let ea := r.1
    let s := r.2
    let v := rd8 s.mem (ea + s.x)
    some { s with y := v, flags := cpu_flags_nz s.flags v }
  | 0xBD =>      -- LDA abs,X
    let r := cpu_fetch16 s
    let ea := r.1
    let s := r.2
    let v := rd8 s.mem (ea + s.x)
    some { s with a := v, flags := cpu_flags_nz s.flags v }
  | 0xBE =>      -- LDX abs,Y
    let r := cpu_fetch16 s
    let ea := r.1
    let s := r.2
    let v := rd8 s.mem (ea + s.y)
    some { s with x := v, flags := cpu_flags_nz s.flags v }
  | _ => none

/-- row 0xC0 of the switch in cpu_execute -/
def cpu_dispatch_row12 (opcode : Nat) (s : CPU) : Option CPU :=
  match opcode with
  | 0xC0 =>      -- CPY #
    let r := cpu_fetch8 s
    let v := r.1
    let s := r.2
    some { s with flags := cpu_flags_nzc s.flags (sub16 s.y v) }
  | 0xC1 =>      -- CMP (ind,X)
    let r := cpu_ind_x s
    let ea := r.1
    let s := r.2
    some { s with flags := cpu_flags_nzc s.flags (sub16 s.a (rd8 s.mem ea)) }
  | 0xC4 =>      -- CPY zpg
    let r := cpu_fetch8 s
    let d := r.1
    let s := r.2
    some { s with flags := cpu_flags_nzc s.flags (sub16 s.y (rd8 s.mem d)) }
  | 0xC5 =>      -- CMP zpg
    let r := cpu_fetch8 s
    let d := r.1
    let s := r.2
    some { s with flags := cpu_flags_nzc s.flags (sub16 s.a (rd8 s.mem d)) }
  | 0xC6 =>      -- DEC zpg
    let r := cpu_fetch8 s
    let addr := r.1
    let s := r.2
    let t := (rd8 s.mem addr + 255) % 256
    some { s with mem := wr8 s.mem addr t, flags := cpu_flags_nz s.flags t }
  | 0xC8 =>      -- INY
    let y := (s.y + 1) % 256
    some { s with y := y, flags := cpu_flags_nz s.flags y }
  | 0xC9 =>      -- CMP #
    let r := cpu_fetch8 s
    let v := r.1
    let s := r.2
    some { s with flags := cpu_flags_nzc s.flags (sub16 s.a v) }
  | 0xCA =>      -- DEX
    let x := (s.x + 255) % 256
    some { s with x := x, flags := cpu_flags_nz s.flags x }
  | 0xCC =>      -- CPY abs
    let r := cpu_fetch16 s
    let ea := r.1
    let s := r.2
    some { s with flags := cpu_flags_nzc s.flags (sub16 s.y (rd8 s.mem ea)) }
  | 0xCD =>      -- CMP abs
    let r := cpu_fetch16 s
    let ea := r.1
    let s := r.2
    some { s with flags := cpu_flags_nzc s.flags (sub16 s.a (rd8 s.mem ea)) }
  | 0xCE =>      -- DEC abs
    let r := cpu_fetch16 s
    let addr := r.1
    let s := r.2
    let t := (rd8 s.mem addr + 255) % 256
    some { s with mem := wr8 s.mem addr t, flags := cpu_flags_nz s.flags t }
  | _ => none

/-- row 0xD0 of the switch in cpu_execute -/
def cpu_dispatch_row13 (opcode : Nat) (s : CPU) : Option CPU :=
  match opcode with
  | 0xD0 =>      -- BNE rel
    let r := cpu_fetch8 s
    let d := r.1
    let s := r.2
    let addr := sext8_16 d
    some { s with pc := if s.flags &&& F_Z = 0 then (s.pc + addr) % 65536 else s.pc }
  | 0xD1 =>      -- CMP (ind),Y
    let r := cpu_ind_y s
    let ea := r.1
    let s := r.2
    some { s with flags := cpu_flags_nzc s.flags (sub16 s.a (rd8 s.mem ea)) }
  | 0xD5 =>      -- CMP zpg,X
    let r := cpu_fetch8 s
    let d := r.1
    let s := r.2
    some { s with flags := cpu_flags_nzc s.flags (sub16 s.a (rd8 s.mem ((d + s.x) &&& 0xFF))) }
  | 0xD6 =>      -- DEC zpg,X
    let r := cpu_fetch8 s
    let d := r.1
    let s := r.2
    let addr := (d + s.x) &&& 0xFF
    let t := (rd8 s.mem addr + 255) % 256
    some { s with mem := wr8 s.mem addr t, flags := cpu_flags_nz s.flags t }
  | 0xD8 =>      -- CLD: the source clears F_C here, not F_D
    some { s with flags := s.flags &&& (0xFF ^^^ F_C) }
  | 0xD9 =>      -- CMP abs,Y
    let r := cpu_fetch16 s
    let ea := r.1
    let s := r.2
    some { s with flags := cpu_flags_nzc s.flags (sub16 s.a (rd8 s.mem (ea + s.y))) }
  | 0xDD =>      -- CMP abs,X
    let r := cpu_fetch16 s
    let ea := r.1
    let s := r.2
    some { s with flags := cpu_flags_nzc s.flags (sub16 s.a (rd8 s.mem (ea + s.x))) }
  | 0xDE =>      -- DEC abs,X
    let r := cpu_fetch16 s
    let ea := r.1
    let s := r.2
    let addr := (ea + s.x) % 65536
    let t := (rd8 s.mem addr + 255) % 256
    some { s with mem := wr8 s.mem addr t, flags := cpu_flags_nz s.flags t }
  | _ => none

/-- row 0xE0 of the switch in cpu_execute -/
def cpu_dispatch_row14 (opcode : Nat) (s : CPU) : Option CPU :=
  match opcode with
  | 0xE0 =>      -- CPX #
    let r := cpu_fetch8 s
    let v := r.1
    let s := r.2
    some { s with flags := cpu_flags_nzc s.flags (sub16 s.x v) }
  | 0xE1 =>      -- SBC (ind,X)
    let r := cpu_ind_x s
    let ea := r.1
    let s := r.2
    some (cpu_sbc s (rd8 s.mem ea))
  | 0xE4 =>      -- CPX zpg
    let r := cpu_fetch8 s
    let d := r.1
    let s := r.2
    some { s with flags := cpu_flags_nzc s.flags (sub16 s.x (rd8 s.mem d)) }
  | 0xE5 =>      -- SBC zpg
    let r := cpu_fetch8 s
    let d := r.1
    let s := r.2
    some (cpu_sbc s (rd8 s.mem d))
  | 0xE6 =>      -- INC zpg
    let r := cpu_fetch8 s
    let addr := r.1
    let s := r.2
    let t := (rd8 s.mem addr + 1) % 256
    some { s with mem := wr8 s.mem addr t, flags := cpu_flags_nz s.flags t }
  | 0xE8 =>      -- INX
    let x := (s.x + 1) % 256
    some { s with x := x, flags := cpu_flags_nz s.flags x }
  | 0xE9 =>      -- SBC #
    let r := cpu_fetch8 s
    let v := r.1
    let s := r.2
    some (cpu_sbc s v)
  | 0xEA =>      -- NOP
    some s
  | 0xEC =>      -- CPX abs: the source fetches one immediate byte here
    let r := cpu_fetch8 s
    let v := r.1
    let s := r.2
    some { s with flags := cpu_flags_nzc s.flags (sub16 s.x v) }
  | 0xED =>      -- SBC abs
    let r := cpu_fetch16 s
    let ea := r.1
    let s := r.2
    some (cpu_sbc s (rd8 s.mem ea))
  | 0xEE =>      -- INC abs
    let r := cpu_fetch16 s
    let addr := r.1
    let s := r.2
    let t := (rd8 s.mem addr + 1) % 256
    some { s with mem := wr8 s.mem addr t, flags := cpu_flags_nz s.flags t }
  | _ => none

/-- row 0xF0 of the switch in cpu_execute -/
def cpu_dispatch_row15 (opcode : Nat) (s : CPU) : Option CPU :=
  match opcode with
  | 0xF0 =>      -- BEQ rel
    let r := cpu_fetch8 s
    let d := r.1
    let s := r.2
    let addr := sext8_16 d
    some { s with pc := if s.flags &&& F_Z ≠ 0 then (s.pc + addr) % 65536 else s.pc }
  | 0xF1 =>      -- SBC (ind),Y
    let r := cpu_ind_y s
    let ea := r.1
    let s := r.2
    some (cpu_sbc s (rd8 s.mem ea))
  | 0xF5 =>      -- SBC zpg,X
    let r := cpu_fetch8 s
    let d := r.1
    let s := r.2
    some (cpu_sbc s (rd8 s.mem ((d + s.x) &&& 0xFF)))
  | 0xF6 =>      -- INC zpg,X
    let r := cpu_fetch8 s
    let d := r.1
    let s := r.2
    let addr := (d + s.x) &&& 0xFF
    let t := (rd8 s.mem addr + 1) % 256
    some { s with mem := wr8 s.mem addr t, flags := cpu_flags_nz s.flags t }
  | 0xF8 =>      -- SED
    some { s with flags := s.flags ||| F_D }
  | 0xF9 =>      -- SBC abs,Y
    let r := cpu_fetch16 s
    let ea := r.1
    let s := r.2
    some (cpu_sbc s (rd8 s.mem (ea + s.y)))
  | 0xFD =>      -- SBC abs,X
    let r := cpu_fetch16 s
    let ea := r.1
    let s := r.2
    some (cpu_sbc s (rd8 s.mem (ea + s.x)))
  | 0xFE =>      -- INC abs,X
    let r := cpu_fetch16 s
    let ea := r.1
    let s := r.2
    let addr := (ea + s.x) % 65536
    let t := (rd8 s.mem addr + 1) % 256
    some { s with mem := wr8 s.mem addr t, flags := cpu_flags_nz s.flags t }
  | _ => none

/-- body of the switch in cpu_execute: run one decoded instruction.
The opcode byte has already been fetched (the program counter of `s`
points past it).  `none` models the fatal decode error of the default
case.  The 256-way switch of the source is split here by the high
nibble of the opcode, following the row comments of the source; each
opcode maps to exactly the same handler code as in the single switch. -/
def cpu_dispatch (opcode : Nat) (s : CPU) : Option CPU :=
  match opcode >>> 4 with
  | 0 => cpu_dispatch_row0 opcode s
  | 1 => cpu_dispatch_row1 opcode s
  | 2 => cpu_dispatch_row2 opcode s
  | 3 => cpu_dispatch_row3 opcode s
  | 4 => cpu_dispatch_row4 opcode s
  | 5 => cpu_dispatch_row5 opcode s
  | 6 => cpu_dispatch_row6 opcode s
  | 7 => cpu_dispatch_row7 opcode s
  | 8 => cpu_dispatch_row8 opcode s
  | 9 => cpu_dispatch_row9 opcode s
  | 10 => cpu_dispatch_row10 opcode s
  | 11 => cpu_dispatch_row11 opcode s
  | 12 => cpu_dispatch_row12 opcode s
  | 13 => cpu_dispatch_row13 opcode s
  | 14 => cpu_dispatch_row14 opcode s
  | 15 => cpu_dispatch_row15 opcode s
  | _ => none
/-- run one instruction -/
def cpu_execute (s0 : CPU) : Option CPU :=
  let (opcode, s) := cpu_fetch8 s0
  cpu_dispatch opcode s

/-! Disassembler (dis-6502.c).  The two packed tables appear in the source
as partially filled initializers: `mne_idx` is `{0, 3, 3, 6, -1}` with the
remaining 251 entries zero, and `addrmode` is `{0x0A, 0x00, 0x07}` with the
remaining 125 bytes zero.  They are embedded as written. -/

def hexDigit (n : Nat) : Char :=
  if n < 10 then Char.ofNat (48 + n) else Char.ofNat (55 + n)

/-- the output of printf "%02X" -/
def hex2 (n : Nat) : String := String.mk [hexDigit (n / 16 % 16), hexDigit (n % 16)]

/-- the output of printf "%04X" -/
def hex4 (n : Nat) : String :=
  String.mk [hexDigit (n / 4096 % 16), hexDigit (n / 256 % 16),
             hexDigit (n / 16 % 16), hexDigit (n % 16)]

def mne_s : String := "BRKORAANDTXATAXPHPPLPCLCJSRRTI"

def mne_idx (i : Nat) : Nat :=
  if i = 0 then 0 else if i = 1 then 3 else if i = 2 then 3
  else if i = 3 then 6 else if i = 4 then 255 else 0

def addrmode (i : Nat) : Nat :=
  if i = 0 then 0x0A else if i = 1 then 0x00 else if i = 2 then 0x07 else 0

/-- the disassembler: the line printed by dis for the three instruction
bytes b0 b1 b2 at address addr -/
def dis (b0 b1 b2 : Nat) (addr : Nat) : String :=
  let b0 := b0 % 256
  let b1 := b1 % 256
  let b2 := b2 % 256
  let addr := addr % 65536
  let out := hex4 addr ++ ":\t"
  if mne_idx b0 = 0xFF then
    out ++ "\tDB\t$" ++ hex2 b0 ++ "\t; illegal instruction\n"
  else
    let p := (mne_s.toList.drop (mne_idx b0)).take 3
    let out := out ++ "\t" ++ String.mk p
    let am0 := addrmode (b0 >>> 1)
    let am := if b0 &&& 1 ≠ 0 then am0 &&& 0xF else am0 >>> 4
    let out := if am ≠ 0 then out ++ "\t" else out
    let word := (b2 <<< 8) + b1
    let target := (addr + sext8_16 b1) % 65536
    let out := out ++
      (if am = 1 then "A"
       else if am = 2 then "#$" ++ hex2 b1
       else if am = 3 then "$" ++ hex4 word
       else if am = 4 then "$" ++ hex2 b1
       else if am = 5 then "$" ++ hex4 target ++ "\t; +" ++ hex2 b1
       else if am = 6 then "$" ++ hex4 word ++ ",X"
       else if am = 7 then "$" ++ hex4 word ++ ",Y"
       else if am = 8 then "$" ++ hex2 b1 ++ ",X"
       else if am = 9 then "$" ++ hex2 b1 ++ ",Y"
       else if am = 10 then "($" ++ hex4 word ++ ",X)"
       else if am = 11 then "($" ++ hex4 word ++ ",Y)"
       else if am = 12 then "($" ++ hex4 word ++ ")"
       else "")
    out ++ "\n"

/-! Concrete machine states used to evaluate the model at specific inputs. -/

/-- memory for the LDA immediate scenario: 0x8000: A9 00, reset vector to 0x8000 -/
def memLDA : Nat → Nat :=
  wr8 (wr8 (wr8 (wr8 mem0 0x8000 0xA9) 0x8001 0x00) 0xFFFC 0x00) 0xFFFD 0x80

/-- memory holding BVS 0x10 at 0x8000 -/
def memBVS : Nat → Nat := wr8 (wr8 mem0 0x8000 0x70) 0x8001 0x10

/-- state at a BVS opcode with N set and V clear -/
def sBVSn : CPU :=
  { a := 0, x := 0, y := 0, flags := F_N, sp := 0xFD, pc := 0x8000, mem := memBVS }

/-- state at a BVS opcode with V set and N clear -/
def sBVSv : CPU :=
  { a := 0, x := 0, y := 0, flags := F_V, sp := 0xFD, pc := 0x8000, mem := memBVS }

/-- memory for CPX abs: 0x8000: EC 05 00, and 0x99 stored at 0x0005 -/
def memCPX : Nat → Nat :=
  wr8 (wr8 (wr8 (wr8 mem0 0x8000 0xEC) 0x8001 0x05) 0x8002 0x00) 0x0005 0x99

/-- state at the CPX abs opcode with X = 0x99 (equal to the byte at 0x0005) -/
def sCPX : CPU :=
  { a := 0, x := 0x99, y := 0, flags := 0, sp := 0xFD, pc := 0x8000, mem := memCPX }

/-- memory with BRK at 0x8000 and IRQ/BRK vector pointing to 0x9000 -/
def memBRK : Nat → Nat := wr8 (wr8 mem0 0xFFFE 0x00) 0xFFFF 0x90

/-- state at the BRK opcode -/
def sBRK : CPU :=
  { a := 0, x := 0, y := 0, flags := 0, sp := 0xFD, pc := 0x8000, mem := memBRK }

/-- memory with the unassigned opcode 0xAB at 0x8000, absolute operand 0x1234,
and 0x77 stored at 0x1234 -/
def memAB : Nat → Nat :=
  wr8 (wr8 (wr8 (wr8 mem0 0x8000 0xAB) 0x8001 0x34) 0x8002 0x12) 0x1234 0x77

/-- state at the unassigned opcode 0xAB -/
def sAB : CPU :=
  { a := 0, x := 0, y := 0, flags := 0, sp := 0xFD, pc := 0x8000, mem := memAB }

/-- memory with CLD at 0x8000 -/
def memCLD : Nat → Nat := wr8 mem0 0x8000 0xD8

/-- state at the CLD opcode with both D and C set -/
def sCLD : CPU :=
  { a := 0, x := 0, y := 0, flags := F_D ||| F_C, sp := 0xFD, pc := 0x8000, mem := memCLD }

/-- state used to instantiate the SBC/ADC equivalence: A = 0x50, carry set -/
def sC3 : CPU :=
  { a := 0x50, x := 0, y := 0, flags := F_C, sp := 0xFD, pc := 0, mem := mem0 }

/-- all-zero state (BRK at pc 0), used to instantiate universally
quantified theorems -/
def sZero : CPU :=
  { a := 0, x := 0, y := 0, flags := 0, sp := 0xFD, pc := 0, mem := mem0 }

/-- state with stack pointer 0, to exercise stack-pointer wrap-around on push -/
def sSP0 : CPU :=
  { a := 0, x := 0, y := 0, flags := 0, sp := 0, pc := 0, mem := mem0 }

/-- state with stack pointer 0xFF, to exercise stack-pointer wrap-around on pop -/
def sSPFF : CPU :=
  { a := 0, x := 0, y := 0, flags := 0, sp := 0xFF, pc := 0, mem := mem0 }


/-! Bitwise toolkit: distributing a mask over the or-chains that build the
status byte. -/

lemma or_and_mask (a b m : Nat) : (a ||| b) &&& m = (a &&& m) ||| (b &&& m) := by
  rw [Nat.and_comm, Nat.and_or_distrib_left, Nat.and_comm m a, Nat.and_comm m b]

lemma ite_and_mask (c : Prop) [Decidable c] (a b m : Nat) :
    (if c then a else b) &&& m = (if c then a &&& m else b &&& m) := by
  split <;> rfl

lemma fetch8_flags (s : CPU) : (cpu_fetch8 s).2.flags = s.flags := rfl
lemma fetch16_flags (s : CPU) : (cpu_fetch16 s).2.flags = s.flags := rfl
lemma ind_x_flags (s : CPU) : (cpu_ind_x s).2.flags = s.flags := rfl
lemma ind_y_flags (s : CPU) : (cpu_ind_y s).2.flags = s.flags := rfl
lemma pop8_flags (s : CPU) : (cpu_pop8 s).2.flags = s.flags := rfl
lemma push8_flags (s : CPU) (v : Nat) : (cpu_push8 s v).flags = s.flags := rfl

/-! The invariant of claim C8 says bits 5 and B, the mask 0x30 = 48, are
clear in the live status byte.  The following lemmas push `&&& 48` through
every flag-writing operation of the core. -/

lemma maskNZ48 : (0xFF ^^^ (F_N ||| F_Z)) &&& 48 = 48 := by decide
lemma maskNZC48 : (0xFF ^^^ (F_N ||| F_Z ||| F_C)) &&& 48 = 48 := by decide
lemma maskBIT48 : (0xFF ^^^ (F_N ||| F_Z ||| F_V)) &&& 48 = 48 := by decide
lemma maskADC48 : (0xFF ^^^ (F_N ||| F_Z ||| F_V ||| F_C)) &&& 48 = 48 := by decide
lemma maskC48 : (0xFF ^^^ F_C) &&& 48 = 48 := by decide
lemma maskI48 : (0xFF ^^^ F_I) &&& 48 = 48 := by decide
lemma maskV48 : (0xFF ^^^ F_V) &&& 48 = 48 := by decide
lemma maskPHYS48 : F_PHYSICAL &&& 48 = 0 := by decide
lemma fn48 : F_N &&& 48 = 0 := by decide
lemma fv48 : F_V &&& 48 = 0 := by decide
lemma fd48 : F_D &&& 48 = 0 := by decide
lemma fi48 : F_I &&& 48 = 0 := by decide
lemma fz48 : F_Z &&& 48 = 0 := by decide
lemma fc48 : F_C &&& 48 = 0 := by decide
lemma zero48 : (0 : Nat) &&& 48 = 0 := by decide

lemma nz48 (f v : Nat) : cpu_flags_nz f v &&& 48 = f &&& 48 := by
  simp only [cpu_flags_nz, or_and_mask, Nat.and_assoc, maskNZ48, ite_and_mask,
    fn48, fz48, zero48, ite_self, Nat.or_zero]

lemma nzc48 (f v : Nat) : cpu_flags_nzc f v &&& 48 = f &&& 48 := by
  simp only [cpu_flags_nzc, or_and_mask, Nat.and_assoc, maskNZC48, ite_and_mask,
    fn48, fz48, fc48, zero48, ite_self, Nat.or_zero]

lemma bit48 (s : CPU) (v : Nat) : (cpu_bit s v).flags &&& 48 = s.flags &&& 48 := by
  simp only [cpu_bit, or_and_mask, Nat.and_assoc, maskBIT48, ite_and_mask,
    fn48, fz48, fv48, zero48, ite_self, Nat.or_zero]

lemma adc48 (s : CPU) (v : Nat) : (cpu_adc s v).flags &&& 48 = s.flags &&& 48 := by
  simp only [cpu_adc, or_and_mask, Nat.and_assoc, maskADC48, ite_and_mask,
    fn48, fz48, fv48, fc48, zero48, ite_self, Nat.or_zero]

lemma sbc48 (s : CPU) (v : Nat) : (cpu_sbc s v).flags &&& 48 = s.flags &&& 48 := by
  simp only [cpu_sbc, or_and_mask, Nat.and_assoc, maskADC48, ite_and_mask,
    fn48, fz48, fv48, fc48, zero48, ite_self, Nat.or_zero]

lemma rol48 (s : CPU) (v : Nat) : (cpu_rol s v).2.flags &&& 48 = s.flags &&& 48 := by
  simp only [cpu_rol, nz48, or_and_mask, Nat.and_assoc, maskC48, ite_and_mask,
    fc48, zero48, ite_self, Nat.or_zero]

lemma ror48 (s : CPU) (v : Nat) : (cpu_ror s v).2.flags &&& 48 = s.flags &&& 48 := by
  simp only [cpu_ror, nz48, or_and_mask, Nat.and_assoc, maskC48, ite_and_mask,
    fc48, zero48, ite_self, Nat.or_zero]

lemma row0_48 (op : Nat) (s : CPU) (h : s.flags &&& 48 = 0) :
    ∀ t, cpu_dispatch_row0 op s = some t → t.flags &&& 48 = 0 := by
  intro t ht
  unfold cpu_dispatch_row0 at ht
  split at ht
  all_goals cases ht
  all_goals (try simp only [fetch8_flags, fetch16_flags, ind_x_flags, ind_y_flags,
    pop8_flags, push8_flags, nz48, nzc48, bit48, adc48, sbc48, rol48, ror48,
    or_and_mask, ite_and_mask, Nat.and_assoc, maskC48, maskI48, maskV48, maskPHYS48,
    fn48, fv48, fd48, fi48, fz48, fc48, zero48, ite_self, Nat.or_zero, Nat.zero_or,
    Nat.and_zero, h])


lemma row1_48 (op : Nat) (s : CPU) (h : s.flags &&& 48 = 0) :
    ∀ t, cpu_dispatch_row1 op s = some t → t.flags &&& 48 = 0 := by
  intro t ht
  unfold cpu_dispatch_row1 at ht
  split at ht
  all_goals cases ht
  all_goals (try simp only [fetch8_flags, fetch16_flags, ind_x_flags, ind_y_flags,
    pop8_flags, push8_flags, nz48, nzc48, bit48, adc48, sbc48, rol48, ror48,
    or_and_mask, ite_and_mask, Nat.and_assoc, maskC48, maskI48, maskV48, maskPHYS48,
    fn48, fv48, fd48, fi48, fz48, fc48, zero48, ite_self, Nat.or_zero, Nat.zero_or,
    Nat.and_zero, h])


lemma row2_48 (op : Nat) (s : CPU) (h : s.flags &&& 48 = 0) :
    ∀ t, cpu_dispatch_row2 op s = some t → t.flags &&& 48 = 0 := by
  intro t ht
  unfold cpu_dispatch_row2 at ht
  split at ht
  all_goals cases ht
  all_goals (try simp only [fetch8_flags, fetch16_flags, ind_x_flags, ind_y_flags,
    pop8_flags, push8_flags, nz48, nzc48, bit48, adc48, sbc48, rol48, ror48,
    or_and_mask, ite_and_mask, Nat.and_assoc, maskC48, maskI48, maskV48, maskPHYS48,
    fn48, fv48, fd48, fi48, fz48, fc48, zero48, ite_self, Nat.or_zero, Nat.zero_or,
    Nat.and_zero, h])


lemma row3_48 (op : Nat) (s : CPU) (h : s.flags &&& 48 = 0) :
    ∀ t, cpu_dispatch_row3 op s = some t → t.flags &&& 48 = 0 := by
  intro t ht
  unfold cpu_dispatch_row3 at ht
  split at ht
  all_goals cases ht
  all_goals (try simp only [fetch8_flags, fetch16_flags, ind_x_flags, ind_y_flags,
    pop8_flags, push8_flags, nz48, nzc48, bit48, adc48, sbc48, rol48, ror48,
    or_and_mask, ite_and_mask, Nat.and_assoc, maskC48, maskI48, maskV48, maskPHYS48,
    fn48, fv48, fd48, fi48, fz48, fc48, zero48, ite_self, Nat.or_zero, Nat.zero_or,
    Nat.and_zero, h])


lemma row4_48 (op : Nat) (s : CPU) (h : s.flags &&& 48 = 0) :
    ∀ t, cpu_dispatch_row4 op s = some t → t.flags &&& 48 = 0 := by
  intro t ht
  unfold cpu_dispatch_row4 at ht
  split at ht
  all_goals cases ht
  all_goals (try simp only [fetch8_flags, fetch16_flags, ind_x_flags, ind_y_flags,
    pop8_flags, push8_flags, nz48, nzc48, bit48, adc48, sbc48, rol48, ror48,
    or_and_mask, ite_and_mask, Nat.and_assoc, maskC48, maskI48, maskV48, maskPHYS48,
    fn48, fv48, fd48, fi48, fz48, fc48, zero48, ite_self, Nat.or_zero, Nat.zero_or,
    Nat.and_zero, h])


lemma row5_48 (op : Nat) (s : CPU) (h : s.flags &&& 48 = 0) :
    ∀ t, cpu_dispatch_row5 op s = some t → t.flags &&& 48 = 0 := by
  intro t ht
  unfold cpu_dispatch_row5 at ht
  split at ht
  all_goals cases ht
  all_goals (try simp only [fetch8_flags, fetch16_flags, ind_x_flags, ind_y_flags,
    pop8_flags, push8_flags, nz48, nzc48, bit48, adc48, sbc48, rol48, ror48,
    or_and_mask, ite_and_mask, Nat.and_assoc, maskC48, maskI48, maskV48, maskPHYS48,
    fn48, fv48, fd48, fi48, fz48, fc48, zero48, ite_self, Nat.or_zero, Nat.zero_or,
    Nat.and_zero, h])


lemma row6_48 (op : Nat) (s : CPU) (h : s.flags &&& 48 = 0) :
    ∀ t, cpu_dispatch_row6 op s = some t → t.flags &&& 48 = 0 := by
  intro t ht
  unfold cpu_dispatch_row6 at ht
  split at ht
  all_goals cases ht
  all_goals (try simp only [fetch8_flags, fetch16_flags, ind_x_flags, ind_y_flags,
    pop8_flags, push8_flags, nz48, nzc48, bit48, adc48, sbc48, rol48, ror48,
    or_and_mask, ite_and_mask, Nat.and_assoc, maskC48, maskI48, maskV48, maskPHYS48,
    fn48, fv48, fd48, fi48, fz48, fc48, zero48, ite_self, Nat.or_zero, Nat.zero_or,
    Nat.and_zero, h])


lemma row7_48 (op : Nat) (s : CPU) (h : s.flags &&& 48 = 0) :
    ∀ t, cpu_dispatch_row7 op s = some t → t.flags &&& 48 = 0 := by
  intro t ht
  unfold cpu_dispatch_row7 at ht
  split at ht
  all_goals cases ht
  all_goals (try simp only [fetch8_flags, fetch16_flags, ind_x_flags, ind_y_flags,
    pop8_flags, push8_flags, nz48, nzc48, bit48, adc48, sbc48, rol48, ror48,
    or_and_mask, ite_and_mask, Nat.and_assoc, maskC48, maskI48, maskV48, maskPHYS48,
    fn48, fv48, fd48, fi48, fz48, fc48, zero48, ite_self, Nat.or_zero, Nat.zero_or,
    Nat.and_zero, h])


lemma row8_48 (op : Nat) (s : CPU) (h : s.flags &&& 48 = 0) :
    ∀ t, cpu_dispatch_row8 op s = some t → t.flags &&& 48 = 0 := by
  intro t ht
  unfold cpu_dispatch_row8 at ht
  split at ht
  all_goals cases ht
  all_goals (try simp only [fetch8_flags, fetch16_flags, ind_x_flags, ind_y_flags,
    pop8_flags, push8_flags, nz48, nzc48, bit48, adc48, sbc48, rol48, ror48,
    or_and_mask, ite_and_mask, Nat.and_assoc, maskC48, maskI48, maskV48, maskPHYS48,
    fn48, fv48, fd48, fi48, fz48, fc48, zero48, ite_self, Nat.or_zero, Nat.zero_or,
    Nat.and_zero, h])


lemma row9_48 (op : Nat) (s : CPU) (h : s.flags &&& 48 = 0) :
    ∀ t, cpu_dispatch_row9 op s = some t → t.flags &&& 48 = 0 := by
  intro t ht
  unfold cpu_dispatch_row9 at ht
  split at ht
  all_goals cases ht
  all_goals (try simp only [fetch8_flags, fetch16_flags, ind_x_flags, ind_y_flags,
    pop8_flags, push8_flags, nz48, nzc48, bit48, adc48, sbc48, rol48, ror48,
    or_and_mask, ite_and_mask, Nat.and_assoc, maskC48, maskI48, maskV48, maskPHYS48,
    fn48, fv48, fd48, fi48, fz48, fc48, zero48, ite_self, Nat.or_zero, Nat.zero_or,
    Nat.and_zero, h])


lemma row10_48 (op : Nat) (s : CPU) (h : s.flags &&& 48 = 0) :
    ∀ t, cpu_dispatch_row10 op s = some t → t.flags &&& 48 = 0 := by
  intro t ht
  unfold cpu_dispatch_row10 at ht
  split at ht
  all_goals cases ht
  all_goals (try simp only [fetch8_flags, fetch16_flags, ind_x_flags, ind_y_flags,
    pop8_flags, push8_flags, nz48, nzc48, bit48, adc48, sbc48, rol48, ror48,
    or_and_mask, ite_and_mask, Nat.and_assoc, maskC48, maskI48, maskV48, maskPHYS48,
    fn48, fv48, fd48, fi48, fz48, fc48, zero48, ite_self, Nat.or_zero, Nat.zero_or,
    Nat.and_zero, h])


lemma row11_48 (op : Nat) (s : CPU) (h : s.flags &&& 48 = 0) :
    ∀ t, cpu_dispatch_row11 op s = some t → t.flags &&& 48 = 0 := by
  intro t ht
  unfold cpu_dispatch_row11 at ht
  split at ht
  all_goals cases ht
  all_goals (try simp only [fetch8_flags, fetch16_flags, ind_x_flags, ind_y_flags,
    pop8_flags, push8_flags, nz48, nzc48, bit48, adc48, sbc48, rol48, ror48,
    or_and_mask, ite_and_mask, Nat.and_assoc, maskC48, maskI48, maskV48, maskPHYS48,
    fn48, fv48, fd48, fi48, fz48, fc48, zero48, ite_self, Nat.or_zero, Nat.zero_or,
    Nat.and_zero, h])


lemma row12_48 (op : Nat) (s : CPU) (h : s.flags &&& 48 = 0) :
    ∀ t, cpu_dispatch_row12 op s = some t → t.flags &&& 48 = 0 := by
  intro t ht
  unfold cpu_dispatch_row12 at ht
  split at ht
  all_goals cases ht
  all_goals (try simp only [fetch8_flags, fetch16_flags, ind_x_flags, ind_y_flags,
    pop8_flags, push8_flags, nz48, nzc48, bit48, adc48, sbc48, rol48, ror48,
    or_and_mask, ite_and_mask, Nat.and_assoc, maskC48, maskI48, maskV48, maskPHYS48,
    fn48, fv48, fd48, fi48, fz48, fc48, zero48, ite_self, Nat.or_zero, Nat.zero_or,
    Nat.and_zero, h])


lemma row13_48 (op : Nat) (s : CPU) (h : s.flags &&& 48 = 0) :
    ∀ t, cpu_dispatch_row13 op s = some t → t.flags &&& 48 = 0 := by
  intro t ht
  unfold cpu_dispatch_row13 at ht
  split at ht
  all_goals cases ht
  all_goals (try simp only [fetch8_flags, fetch16_flags, ind_x_flags, ind_y_flags,
    pop8_flags, push8_flags, nz48, nzc48, bit48, adc48, sbc48, rol48, ror48,
    or_and_mask, ite_and_mask, Nat.and_assoc, maskC48, maskI48, maskV48, maskPHYS48,
    fn48, fv48, fd48, fi48, fz48, fc48, zero48, ite_self, Nat.or_zero, Nat.zero_or,
    Nat.and_zero, h])


lemma row14_48 (op : Nat) (s : CPU) (h : s.flags &&& 48 = 0) :
    ∀ t, cpu_dispatch_row14 op s = some t → t.flags &&& 48 = 0 := by
  intro t ht
  unfold cpu_dispatch_row14 at ht
  split at ht
  all_goals cases ht
  all_goals (try simp only [fetch8_flags, fetch16_flags, ind_x_flags, ind_y_flags,
    pop8_flags, push8_flags, nz48, nzc48, bit48, adc48, sbc48, rol48, ror48,
    or_and_mask, ite_and_mask, Nat.and_assoc, maskC48, maskI48, maskV48, maskPHYS48,
    fn48, fv48, fd48, fi48, fz48, fc48, zero48, ite_self, Nat.or_zero, Nat.zero_or,
    Nat.and_zero, h])


lemma row15_48 (op : Nat) (s : CPU) (h : s.flags &&& 48 = 0) :
    ∀ t, cpu_dispatch_row15 op s = some t → t.flags &&& 48 = 0 := by
  intro t ht
  unfold cpu_dispatch_row15 at ht
  split at ht
  all_goals cases ht
  all_goals (try simp only [fetch8_flags, fetch16_flags, ind_x_flags, ind_y_flags,
    pop8_flags, push8_flags, nz48, nzc48, bit48, adc48, sbc48, rol48, ror48,
    or_and_mask, ite_and_mask, Nat.and_assoc, maskC48, maskI48, maskV48, maskPHYS48,
    fn48, fv48, fd48, fi48, fz48, fc48, zero48, ite_self, Nat.or_zero, Nat.zero_or,
    Nat.and_zero, h])

/-- one step of the core never sets bit 5 or bit B of the live status byte -/
lemma dispatch_48 (op : Nat) (s : CPU) (h : s.flags &&& 48 = 0) :
    ∀ t, cpu_dispatch op s = some t → t.flags &&& 48 = 0 := by
  intro t ht
  unfold cpu_dispatch at ht
  split at ht
  case _ => exact row0_48 op s h t ht
  case _ => exact row1_48 op s h t ht
  case _ => exact row2_48 op s h t ht
  case _ => exact row3_48 op s h t ht
  case _ => exact row4_48 op s h t ht
  case _ => exact row5_48 op s h t ht
  case _ => exact row6_48 op s h t ht
  case _ => exact row7_48 op s h t ht
  case _ => exact row8_48 op s h t ht
  case _ => exact row9_48 op s h t ht
  case _ => exact row10_48 op s h t ht
  case _ => exact row11_48 op s h t ht
  case _ => exact row12_48 op s h t ht
  case _ => exact row13_48 op s h t ht
  case _ => exact row14_48 op s h t ht
  case _ => exact row15_48 op s h t ht
  case _ => exact Option.noConfusion ht

/-! Helper lemmas for the SBC/ADC relation. -/

set_option maxRecDepth 4000 in
lemma xor255 : ∀ x < 256, x ^^^ 0xFF = 255 - x := by decide

set_option maxRecDepth 4000 in
lemma signed8_compl : ∀ x < 256, signed8 (255 - x) = -1 - signed8 x := by decide

lemma maskADC1 : (0xFF ^^^ (F_N ||| F_Z ||| F_V ||| F_C)) &&& F_C = 0 := by decide
lemma fn1 : F_N &&& F_C = 0 := by decide
lemma fz1 : F_Z &&& F_C = 0 := by decide
lemma fv1 : F_V &&& F_C = 0 := by decide
lemma fc1 : F_C &&& F_C = F_C := by decide
lemma z1 : (0 : Nat) &&& F_C = 0 := by decide
lemma maskADC64 : (0xFF ^^^ (F_N ||| F_Z ||| F_V ||| F_C)) &&& F_V = 0 := by decide
lemma fn64 : F_N &&& F_V = 0 := by decide
lemma fz64 : F_Z &&& F_V = 0 := by decide
lemma fv64 : F_V &&& F_V = F_V := by decide
lemma fc64 : F_C &&& F_V = 0 := by decide
lemma z64 : (0 : Nat) &&& F_V = 0 := by decide

/-! The claims. -/

/-- Claim C1: for every branch opcode the new PC is either the fall-through
address (opcode address + 2) or fall-through plus the sign-extended offset,
and which one depends only on the flag the mnemonic names (V for BVS).
The source refutes this at BVS (0x70), whose handler tests N instead of V:
from 0x8000 with the program 70 10, a state with N set and V clear takes
the branch (PC = 0x8012 instead of the 0x8002 the claim requires), and a
state with V set and N clear falls through (PC = 0x8002 instead of 0x8012). -/
theorem bvs_branches_on_N :
    ((cpu_execute sBVSn).getD sBVSn).pc = 0x8012 ∧
    ((cpu_execute sBVSv).getD sBVSv).pc = 0x8002 := ⟨rfl, rfl⟩

/-- Claim C2: loads set N and Z from the loaded value; in the LDA-immediate
scenario (memory 0x8000: A9 00, reset vector to 0x8000) one step after reset
must end with Z = 1.  The source refutes this: the LDA # handler stores the
byte into A without calling the flag update, so Z is still 0 (the live
status byte is still the reset value F_I) although A = 0 and PC = 0x8002. -/
theorem lda_imm_leaves_flags :
    ((cpu_execute (cpu_init memLDA)).getD (cpu_init memLDA)).a = 0 ∧
    ((cpu_execute (cpu_init memLDA)).getD (cpu_init memLDA)).pc = 0x8002 ∧
    ((cpu_execute (cpu_init memLDA)).getD (cpu_init memLDA)).flags = F_I ∧
    ((cpu_execute (cpu_init memLDA)).getD (cpu_init memLDA)).flags &&& F_Z = 0 :=
  ⟨rfl, rfl, rfl, rfl⟩

/-- Claim C3: SBC with operand x produces exactly the state ADC produces
with operand NOT x; equivalently A gets the low byte of the 16-bit
difference u = A - x - (1 - C), C is set iff the high byte of u is zero
(no borrow), and V is set iff the signed difference leaves [-128, 127]. -/
theorem sbc_is_adc_of_complement (s : CPU) (x : Nat) (hx : x < 256) (ha : s.a < 256) :
    cpu_sbc s x = cpu_adc s (x ^^^ 0xFF) ∧
    (cpu_sbc s x).a =
      (s.a + 65536 - x - (if s.flags &&& F_C ≠ 0 then 0 else 1)) % 65536 % 256 ∧
    ((cpu_sbc s x).flags &&& F_C = F_C ↔
      ((s.a + 65536 - x - (if s.flags &&& F_C ≠ 0 then 0 else 1)) % 65536) >>> 8 = 0) ∧
    ((cpu_sbc s x).flags &&& F_V = F_V ↔
      (127 < signed8 s.a - signed8 x - (if s.flags &&& F_C ≠ 0 then 0 else 1) ∨
       signed8 s.a - signed8 x - (if s.flags &&& F_C ≠ 0 then 0 else 1) < -128)) := by
  refine ⟨?_, rfl, ?_, ?_⟩
  · rw [xor255 x hx]
    by_cases hc : s.flags &&& F_C = 0
    · unfold cpu_sbc cpu_adc
      rw [if_neg (by simp [hc]), if_neg (by simp [hc])]
      have hu : (s.a + 65536 - x - 1) % 65536 % 256 = (s.a + (255 - x) + 0) % 65536 % 256 := by
        omega
      refine CPU.ext ?_ rfl rfl ?_ rfl rfl rfl
      · exact hu
      · dsimp only
        rw [hu]
        congr 1
        · congr 1
          · rw [Nat.shiftRight_eq_div_pow, Nat.shiftRight_eq_div_pow]
            split_ifs <;> first | rfl | omega
        · apply if_congr _ rfl rfl
          rw [signed8_compl x hx]
          constructor <;> (intro h1; omega)
    · unfold cpu_sbc cpu_adc
      rw [if_pos hc, if_pos hc]
      have hu : (s.a + 65536 - x - 0) % 65536 % 256 = (s.a + (255 - x) + 1) % 65536 % 256 := by
        omega
      refine CPU.ext ?_ rfl rfl ?_ rfl rfl rfl
      · exact hu
      · dsimp only
        rw [hu]
        congr 1
        · congr 1
          · rw [Nat.shiftRight_eq_div_pow, Nat.shiftRight_eq_div_pow]
            split_ifs <;> first | rfl | omega
        · apply if_congr _ rfl rfl
          rw [signed8_compl x hx]
          constructor <;> (intro h1; omega)
  · simp only [cpu_sbc, or_and_mask, ite_and_mask, Nat.and_assoc, maskADC1,
      fn1, fz1, fv1, fc1, z1, Nat.and_zero, Nat.zero_and, ite_self, Nat.or_zero, Nat.zero_or]
    split_ifs <;> simp_all [F_C]
  · simp only [cpu_sbc, or_and_mask, ite_and_mask, Nat.and_assoc, maskADC64,
      fn64, fz64, fv64, fc64, z64, Nat.and_zero, Nat.zero_and, ite_self, Nat.or_zero,
      Nat.zero_or]
    split_ifs <;> simp_all [F_V]

/-- witness for C3: the SBC/ADC relation applied at A = 0x50, C = 1,
operand 0xF0 (the SBC scenario of the spec) -/
theorem sbc_is_adc_of_complement_witness :
    (0xF0 : Nat) < 256 ∧ sC3.a < 256 ∧
    cpu_sbc sC3 0xF0 = cpu_adc sC3 (0xF0 ^^^ 0xFF) :=
  ⟨by decide, by decide, (sbc_is_adc_of_complement sC3 0xF0 (by decide) (by decide)).1⟩

/-- Claim C4: opcode 0xEC (CPX abs) resolves a two-byte absolute address,
reads the operand there and advances PC by 3.  The source refutes this: the
handler calls the one-byte immediate fetch, so from 0x8000 with EC 05 00 and
0x99 stored at 0x0005 and X = 0x99 the step ends with PC = 0x8002 (not
0x8003) and compares X against the literal 0x05 (Z clear, where comparing
against the byte at 0x0005 would set Z). -/
theorem cpx_abs_fetches_immediate :
    ((cpu_execute sCPX).getD sCPX).pc = 0x8002 ∧
    ((cpu_execute sCPX).getD sCPX).flags &&& F_Z = 0 ∧
    ((cpu_execute sCPX).getD sCPX).flags = F_N ||| F_C := ⟨rfl, rfl, rfl⟩

/-- Claim C5: BRK at address p pushes p+2 high then low, pushes P with
bits 5 and B forced, sets I, loads PC from 0xFFFE/F and drops SP by 3.
The source pushes p+1, not p+2: with BRK at 0x8000 the pushed low byte at
0x01FC is 0x01.  Everything else matches the claim (high byte 0x80 at
0x01FD, P | 0x30 = 0x30 at 0x01FB, I set, PC = vector 0x9000, SP 0xFD-3). -/
theorem brk_pushes_pc_plus_one :
    ((cpu_execute sBRK).getD sBRK).pc = 0x9000 ∧
    ((cpu_execute sBRK).getD sBRK).sp = 0xFA ∧
    ((cpu_execute sBRK).getD sBRK).mem 0x01FD = 0x80 ∧
    ((cpu_execute sBRK).getD sBRK).mem 0x01FC = 0x01 ∧
    ((cpu_execute sBRK).getD sBRK).mem 0x01FB = 0x30 ∧
    ((cpu_execute sBRK).getD sBRK).flags = F_I := ⟨rfl, rfl, rfl, rfl, rfl, rfl⟩

/-- Claim C6: every opcode outside the documented set, for example 0xAB,
raises the fatal decode failure.  The source refutes this at 0xAB: the case
is marked unassigned but falls through to LDY abs, so the step succeeds,
loads Y from the absolute address and advances PC by 3. -/
theorem opcode_AB_decodes_as_LDY_abs :
    (cpu_execute sAB).isSome = true ∧
    ((cpu_execute sAB).getD sAB).y = 0x77 ∧
    ((cpu_execute sAB).getD sAB).pc = 0x8003 := ⟨rfl, rfl, rfl⟩

/-- Claim C7: opcode 0xD8 (CLD) clears the D flag and nothing else.  The
source refutes this: the handler clears C instead, so from flags = D | C
the step ends with D still set and C cleared (flags = 0x08), PC + 1. -/
theorem cld_clears_carry_not_decimal :
    ((cpu_execute sCLD).getD sCLD).flags &&& F_D = F_D ∧
    ((cpu_execute sCLD).getD sCLD).flags &&& F_C = 0 ∧
    ((cpu_execute sCLD).getD sCLD).flags = F_D ∧
    ((cpu_execute sCLD).getD sCLD).pc = 0x8001 := ⟨rfl, rfl, rfl, rfl⟩

/-- Claim C8: bits 5 (0x20) and B (0x10) of the live status byte are clear
after reset and stay clear after every successful step, from any state
satisfying the invariant; PLP and RTI mask them off the pulled byte. -/
theorem live_flags_5B_always_clear :
    (∀ m, (cpu_init m).flags &&& (F_5 ||| F_B) = 0) ∧
    (∀ s t, s.flags &&& (F_5 ||| F_B) = 0 → cpu_execute s = some t →
      t.flags &&& (F_5 ||| F_B) = 0) := by
  constructor
  · intro m
    show F_I &&& (F_5 ||| F_B) = 0
    decide
  · intro s t h hstep
    have h48 : s.flags &&& 48 = 0 := h
    have h2 : (cpu_fetch8 s).2.flags &&& 48 = 0 := by rw [fetch8_flags]; exact h48
    exact dispatch_48 (cpu_fetch8 s).1 (cpu_fetch8 s).2 h2 t hstep

/-- witness for C8: the invariant holds after reset on zero memory and after
one step (a BRK) from the all-zero state -/
theorem live_flags_5B_always_clear_witness :
    (cpu_init mem0).flags &&& (F_5 ||| F_B) = 0 ∧
    ((cpu_execute sZero).getD sZero).flags &&& (F_5 ||| F_B) = 0 :=
  ⟨live_flags_5B_always_clear.1 mem0,
   live_flags_5B_always_clear.2 sZero ((cpu_execute sZero).getD sZero) rfl rfl⟩

/-- Claim C9: the disassembler renders JSR $9000 and BNE with a relative
target comment for the two given byte triples.  The source refutes this:
its mnemonic and addressing-mode tables are stub initializers (mne_idx is
{0,3,3,6,-1} and addrmode is {0x0A,0x00,0x07}, the rest zero), and dis
prints a second tab after the address, so both inputs render as the
implied-mode line of mnemonic index 0, the string "8000:\t\tBRK\n". -/
theorem dis_renders_stub_tables :
    dis 0x20 0x00 0x90 0x8000 = "8000:\t\tBRK\n" ∧
    dis 0xD0 0xFE 0x00 0x8000 = "8000:\t\tBRK\n" ∧
    dis 0x20 0x00 0x90 0x8000 ≠ "8000:\tJSR\t$9000\n" ∧
    dis 0xD0 0xFE 0x00 0x8000 ≠ "8000:\tBNE\t$8000\t; +FE\n" :=
  ⟨by decide, by decide, by decide, by decide⟩

/-- Claim C10: the stack pointer is 8-bit and wraps mod 256; a push writes
to 0x0100 + SP and decrements SP, a pop increments SP and reads from
0x0100 + SP, and both addresses always lie in the stack page
[0x0100, 0x01FF].  With SP = 0 a push writes 0x0100 and leaves SP = 0xFF;
with SP = 0xFF a pop reads 0x0100 and leaves SP = 0. -/
theorem stack_page_wraparound (s : CPU) (v : Nat) (h : s.sp < 256) :
    ((cpu_push8 s v).mem (0x0100 + s.sp) = v % 256) ∧
    ((cpu_push8 s v).sp = (s.sp + 255) % 256) ∧
    (∀ i, i ≠ 0x0100 + s.sp → (cpu_push8 s v).mem i = s.mem i) ∧
    ((cpu_pop8 s).1 = s.mem (0x0100 + (s.sp + 1) % 256) % 256) ∧
    ((cpu_pop8 s).2.sp = (s.sp + 1) % 256) ∧
    (0x0100 ≤ 0x0100 + s.sp ∧ 0x0100 + s.sp ≤ 0x01FF) ∧
    (0x0100 ≤ 0x0100 + (s.sp + 1) % 256 ∧ 0x0100 + (s.sp + 1) % 256 ≤ 0x01FF) := by
  have hm : (0x0100 + s.sp) % 65536 = 0x0100 + s.sp := Nat.mod_eq_of_lt (by omega)
  have hm2 : (s.sp + 1) % 256 < 256 := Nat.mod_lt _ (by omega)
  refine ⟨?_, rfl, ?_, ?_, rfl, ⟨by omega, by omega⟩, ⟨by omega, by omega⟩⟩
  · show wr8 s.mem (0x0100 + s.sp) v (0x0100 + s.sp) = v % 256
    unfold wr8
    rw [hm, if_pos rfl]
  · intro i hi
    show wr8 s.mem (0x0100 + s.sp) v i = s.mem i
    unfold wr8
    rw [hm, if_neg hi]
  · show rd8 s.mem (0x0100 + (s.sp + 1) % 256) = s.mem (0x0100 + (s.sp + 1) % 256) % 256
    unfold rd8
    rw [show (0x0100 + (s.sp + 1) % 256) % 65536 = 0x0100 + (s.sp + 1) % 256 from
      Nat.mod_eq_of_lt (by omega)]

/-- witness for C10: push at SP = 0 targets 0x0100 and wraps SP to 0xFF;
pop at SP = 0xFF reads 0x0100 and wraps SP to 0 -/
theorem stack_page_wraparound_witness :
    (cpu_push8 sSP0 0xAB).mem 0x0100 = 0xAB ∧ (cpu_push8 sSP0 0xAB).sp = 0xFF ∧
    (cpu_pop8 sSPFF).1 = sSPFF.mem 0x0100 % 256 ∧ (cpu_pop8 sSPFF).2.sp = 0 := by
  have h1 := stack_page_wraparound sSP0 0xAB (by decide)
  have h2 := stack_page_wraparound sSPFF 0 (by decide)
  exact ⟨h1.1, h1.2.1, h2.2.2.2.1, h2.2.2.2.2.1⟩

end Mos6502
